import Mathlib

/-!
Verification of the guardrail/NER sanitization core of the repository.

The Python source (app/guardrails.py, app/main.py) is shallowly embedded
here.  Python text is modelled as `List Char` (a Python `str` is a sequence
of code points, and all slicing in the source is by code-point index).
Python floats are modelled as `ℚ` where the source does arithmetic and
comparisons; the external cosine-similarity computation of the semantic
matcher is modelled over `ℝ` in a dedicated section below, since it
involves square roots.  The two external ML collaborators (the presidio
analyzer backend and the sentence-transformer encoder) are parameters of
the embedding (`Oracles`): the source treats them as black boxes and the
spec lists them as external collaborators.
-/

namespace GuardrailNER

/-- Code points of a string literal, the `List Char` view of a Python str. -/
def chars (s : String) : List Char := s.data

/-! ## Configuration (guardrails.py, PII_DETECTION_CONFIG and DETECTION_MODES) -/

/-- PII_DETECTION_CONFIG thresholds, semantic_similarity (guardrails.py line 20). -/
def thresholds_semantic_similarity : ℚ := 0.75

/-- PII_DETECTION_CONFIG thresholds, risk_score (guardrails.py line 21). -/
def thresholds_risk_score : ℚ := 0.5

/-- PII_DETECTION_CONFIG thresholds, presidio_confidence (guardrails.py line 22). -/
def thresholds_presidio_confidence : ℚ := 0.7

/-- PII_DETECTION_CONFIG entities (guardrails.py lines 25-29); PERSON is deliberately excluded. -/
def entities : List String :=
  ["CREDIT_CARD", "EMAIL_ADDRESS", "PHONE_NUMBER", "US_SSN",
   "BANK_ACCOUNT", "IBAN_CODE", "IFSC_CODE", "PAN_NUMBER",
   "AADHAAR_NUMBER", "LOCATION", "URL"]

/-- PII_DETECTION_CONFIG sensitive_topics (guardrails.py lines 30-39). -/
def sensitive_topics : List String :=
  ["bank account", "credit card", "debit card", "ifsc code", "cvv",
   "social security number", "ssn", "pan card", "aadhaar", "passport",
   "routing number", "account number", "pin", "password", "otp",
   "salary", "compensation", "ctc", "package", "banking details",
   "net banking", "upi id", "paytm", "google pay", "phonepe",
   "linkedin", "github",
   "cgpa", "marks", "gpa", "grade", "percentage"]

/-- PII_DETECTION_CONFIG high_risk_entities (guardrails.py lines 40-43). -/
def high_risk_entities : List String :=
  ["CREDIT_CARD", "US_SSN", "BANK_ACCOUNT", "AADHAAR_NUMBER",
   "PAN_NUMBER", "IFSC_CODE", "EMAIL_ADDRESS", "PHONE_NUMBER", "URL"]

/-- PII_DETECTION_CONFIG redaction_patterns (guardrails.py lines 44-59),
as an association list modelling the Python dict. -/
def redaction_patterns : List (String × String) :=
  [("EMAIL_ADDRESS", "[EMAIL_REDACTED]"),
   ("PHONE_NUMBER", "[PHONE_REDACTED]"),
   ("US_SSN", "[SSN_REDACTED]"),
   ("CREDIT_CARD", "[CARD_REDACTED]"),
   ("BANK_ACCOUNT", "[ACCOUNT_REDACTED]"),
   ("IFSC_CODE", "[IFSC_REDACTED]"),
   ("PAN_NUMBER", "[PAN_REDACTED]"),
   ("AADHAAR_NUMBER", "[AADHAAR_REDACTED]"),
   ("URL", "[LINK_REDACTED]"),
   ("CGPA", "[CGPA_REDACTED]"),
   ("MARKS", "[MARKS_REDACTED]"),
   ("GPA", "[GPA_REDACTED]"),
   ("PERCENTAGE", "[PERCENTAGE_REDACTED]")]

/-- One entry of DETECTION_MODES (guardrails.py lines 62-78). -/
structure DetectionMode where
  semantic_threshold : ℚ
  risk_threshold : ℚ
  block_on_pii : Bool
deriving DecidableEq, Repr

/-- DETECTION_MODES (guardrails.py lines 62-78). -/
def DETECTION_MODES : List (String × DetectionMode) :=
  [("strict", ⟨0.6, 0.3, false⟩),
   ("moderate", ⟨0.75, 0.5, false⟩),
   ("lenient", ⟨0.85, 0.7, false⟩)]

/-- DEFAULT_DETECTION_MODE (guardrails.py line 79). -/
def DEFAULT_DETECTION_MODE : String := "moderate"

/-! ## Data model -/

/-- One presidio detection dict, as built in detect_pii_with_presidio
(guardrails.py lines 114-122): entity_type, start, end, score, text. -/
structure Detection where
  entity_type : String
  start : Nat
  «end» : Nat
  score : ℚ
  text : List Char
deriving DecidableEq, Repr

/-- The dict returned by detect_semantic_pii (guardrails.py lines 127-143).
The matched_topic key is only present in the detected branch; that is
modelled with an `Option`, and the source reads it back with
a get call defaulting to the empty string (line 179), modelled by `getD`. -/
structure SemanticDet where
  detected : Bool
  similarity : ℚ
  matched_topic : Option String
deriving DecidableEq, Repr

/-- The dict returned by analyze_text (guardrails.py lines 149-155).
In the source, all_detections and presidio_detections are the same list
object (line 148 aliases them). -/
structure Analysis where
  contains_pii : Bool
  presidio_detections : List Detection
  semantic_detection : SemanticDet
  all_detections : List Detection
  risk_score : ℚ
deriving DecidableEq, Repr

/-- The two external ML collaborators, as black-box functions from text:
the presidio analyzer backend (detect_pii_with_presidio, guardrails.py
lines 105-125) and the sentence-transformer semantic matcher
(detect_semantic_pii, lines 127-143).  Both are external to the core and
listed as collaborators by the spec; the embedding is parametric in them. -/
structure Oracles where
  presidio : List Char → List Detection
  semantic : List Char → SemanticDet

/-! ## Risk scoring (_calculate_risk, guardrails.py lines 157-164) -/

/-- _calculate_risk (guardrails.py lines 157-164), transcribed clause by
clause: 0.3 per detection, plus 0.5 times similarity when the semantic
match is detected, plus 0.4 per detection whose type is high risk, the
total clamped by min with 1.0. -/
def calculate_risk (detections : List Detection) (semantic : SemanticDet) : ℚ :=
  let score : ℚ := (detections.length : ℚ) * 0.3
  let score : ℚ := if semantic.detected then score + semantic.similarity * 0.5 else score
  let score : ℚ :=
    detections.foldl
      (fun s d => if high_risk_entities.contains d.entity_type then s + 0.4 else s) score
  min score 1

/-- The closed-form risk formula as written in the spec (section 4.3):
min of 1 and 0.3 times the span count, plus 0.5 times the similarity if
detected, plus 0.4 times the count of high-risk spans.  Spec-side
definition, to be compared with `calculate_risk` from the source. -/
def risk_formula (dets : List Detection) (sem : SemanticDet) : ℚ :=
  min 1 (0.3 * (dets.length : ℚ)
    + (if sem.detected then 0.5 * sem.similarity else 0)
    + 0.4 * ((dets.filter (fun d => high_risk_entities.contains d.entity_type)).length : ℚ))

/-- analyze_text (guardrails.py lines 145-155), with the two external
detectors supplied by the oracles.  Note: no confidence filtering is
applied to the presidio detections before they are stored and scored. -/
def analyze_text (o : Oracles) (text : List Char) : Analysis :=
  let presidio := o.presidio text
  let semantic := o.semantic text
  { contains_pii := !presidio.isEmpty || semantic.detected,
    presidio_detections := presidio,
    semantic_detection := semantic,
    all_detections := presidio,
    risk_score := calculate_risk presidio semantic }

/-! ## Text primitives (Python str operations used by redact_pii) -/

/-- Python substring membership test (the `in` operator on str),
on code-point lists: some suffix of s has pat as a prefix. -/
def containsSub : List Char → List Char → Bool
  | [], pat => pat.isEmpty
  | c :: cs, pat => pat.isPrefixOf (c :: cs) || containsSub cs pat

/-- Fueled worker for `replaceAll`; the fuel bounds the number of steps by
the length of the subject string, which suffices because every step
consumes at least one character. -/
def replaceAllAux : Nat → List Char → List Char → List Char → List Char
  | 0, s, _, _ => s
  | _ + 1, [], _, _ => []
  | fuel + 1, c :: cs, pat, repl =>
    if !pat.isEmpty && pat.isPrefixOf (c :: cs) then
      repl ++ replaceAllAux fuel ((c :: cs).drop pat.length) pat repl
    else
      c :: replaceAllAux fuel cs pat repl

/-- Python str.replace on code-point lists: replace every non-overlapping
occurrence of pat, scanning left to right.  (All patterns passed by the
source are non-empty literals, so the empty-pattern edge case of Python
never arises.) -/
def replaceAll (s pat repl : List Char) : List Char :=
  replaceAllAux s.length s pat repl

/-- Python str.upper on code-point lists (all literals involved are ASCII). -/
def listToUpper (s : List Char) : List Char := s.map Char.toUpper

/-- Python dict get on redaction_patterns (guardrails.py lines 173-175). -/
def redaction_lookup (t : String) : Option String :=
  (redaction_patterns.find? (fun p => p.1 == t)).map (fun p => p.2)

/-- The replacement string chosen at guardrails.py lines 173-175: the
configured pattern for the entity type, with the generated fallback
token when the type has no explicit mapping. -/
def replacement_for (t : String) : List Char :=
  match redaction_lookup t with
  | some r => chars r
  | none => chars ("[" ++ t ++ "_REDACTED]")

/-! ## Redaction (redact_pii, guardrails.py lines 166-188) -/

/-- The in-place `detections.sort(key=start, reverse=True)` of
guardrails.py line 171.  Python list.sort is a stable sort; a stable sort
descending by start is insertion sort with the total preorder
`b.start ≤ a.start`, which gives the identical output list. -/
def sortDetDesc (l : List Detection) : List Detection :=
  l.insertionSort (fun a b => b.«start» ≤ a.«start»)

/-- The span-replacement loop of redact_pii (guardrails.py lines 172-176):
fold over the (already sorted) detections, splicing the replacement token
over the half-open interval from start to end of the current string. -/
def redact_spans (text : List Char) (spans : List Detection) : List Char :=
  spans.foldl
    (fun redacted d =>
      redacted.take d.«start» ++ replacement_for d.entity_type ++ redacted.drop d.«end»)
    text

/-- The semantic keyword pass of redact_pii (guardrails.py lines 177-188):
when the semantic match is detected, the uppercased matched topic selects
at most one literal substitution (CGPA, marks, GPA, or percent sign). -/
def topic_keyword_pass (redacted : List Char) (sem : SemanticDet) : List Char :=
  if sem.detected then
    let topic := listToUpper (chars (sem.matched_topic.getD ""))
    if containsSub topic (chars "CGPA") then
      replaceAll redacted (chars "CGPA") (chars "[CGPA_REDACTED]")
    else if containsSub topic (chars "MARKS") then
      replaceAll redacted (chars "marks") (chars "[MARKS_REDACTED]")
    else if containsSub topic (chars "GPA") then
      replaceAll redacted (chars "GPA") (chars "[GPA_REDACTED]")
    else if containsSub topic (chars "PERCENTAGE") then
      replaceAll redacted (chars "%") (chars "[PERCENTAGE_REDACTED]")
    else redacted
  else redacted

/-- redact_pii (guardrails.py lines 166-188).  The Python function sorts
the detection list of the analysis dict in place (line 171) before
looping, so the analysis observable after the call carries the sorted
list; that mutation is modelled by returning the updated analysis next to
the redacted text.  Since line 148 of the source aliases all_detections
to the same list object, both fields carry the sorted list. -/
def redact_pii (text : List Char) (analysis : Analysis) : List Char × Analysis :=
  let detections := sortDetDesc analysis.presidio_detections
  let redacted := redact_spans text detections
  let redacted := topic_keyword_pass redacted analysis.semantic_detection
  (redacted,
   { analysis with presidio_detections := detections, all_detections := detections })

/-! ## Facade (apply_guardrails and AdvancedGuardrails, guardrails.py lines 196-220) -/

/-- apply_guardrails (guardrails.py lines 196-201).  The mode parameter is
accepted (default DEFAULT_DETECTION_MODE at the call sites) and, exactly
as in the source, never read. -/
def apply_guardrails (o : Oracles) (text : List Char) (mode : String) : List Char :=
  let analysis := analyze_text o text
  if analysis.contains_pii then (redact_pii text analysis).1 else text

/-- The dict returned by AdvancedGuardrails.analyze_content
(guardrails.py lines 208-218), with the metadata mapping flattened into
fields. -/
structure ContentAnalysis where
  safe : Bool
  presidio_detections : List Detection
  semantic_detection : SemanticDet
  pii_types : List String
  risk_score : ℚ
deriving DecidableEq, Repr

/-- AdvancedGuardrails.analyze_content (guardrails.py lines 208-218):
note the safe field is the literal True, per the source comment
"always safe after redaction". -/
def analyze_content (o : Oracles) (text : List Char) : ContentAnalysis :=
  let analysis := analyze_text o text
  { safe := true,
    presidio_detections := analysis.presidio_detections,
    semantic_detection := analysis.semantic_detection,
    pii_types := analysis.presidio_detections.map (fun d => d.entity_type),
    risk_score := analysis.risk_score }

/-- The blocked-response payload of the final guard in query_resume
(app/main.py line 181). -/
def blocked_response_payload : List Char :=
  chars "[❌ Response hidden: sensitive content detected]"

/-- The final guard of the query endpoint (app/main.py lines 178-186):
analyze the (already redacted) response text and return the blocked
payload when the analysis is not safe and its risk score exceeds 0.8,
otherwise return the response text itself.  The earlier guard at lines
153-159 has exactly the same condition shape. -/
def final_response_check (o : Oracles) (response_text : List Char) : List Char :=
  let analysis := analyze_content o response_text
  if analysis.safe = false ∧ (0.8 : ℚ) < analysis.risk_score then
    blocked_response_payload
  else
    response_text

/-! ## Shared helper lemmas -/

/-- The high-risk loop of _calculate_risk adds 0.4 exactly once per
high-risk detection: the fold equals the start value plus 0.4 times the
number of detections whose type is high risk. -/
theorem foldl_high_risk (l : List Detection) (s : ℚ) :
    l.foldl (fun s d => if high_risk_entities.contains d.entity_type then s + 0.4 else s) s
      = s + 0.4 * ((l.filter (fun d => high_risk_entities.contains d.entity_type)).length : ℚ) := by
  induction l generalizing s with
  | nil => simp
  | cons d l ih =>
    by_cases h : high_risk_entities.contains d.entity_type
    · simp only [List.foldl_cons, List.filter_cons, h, if_pos, ih, List.length_cons]
      push_cast
      ring
    · simp only [List.foldl_cons, List.filter_cons, h, if_neg, Bool.false_eq_true, ite_false,
        ih, if_false]

/-- _calculate_risk computes the closed-form formula of the spec. -/
theorem calculate_risk_eq (dets : List Detection) (sem : SemanticDet) :
    calculate_risk dets sem = risk_formula dets sem := by
  simp only [calculate_risk, risk_formula]
  rw [foldl_high_risk, min_comm]
  by_cases h : sem.detected
  · simp only [h, if_pos]
    congr 1
    ring
  · simp only [h, Bool.false_eq_true, ite_false, if_neg]
    congr 1
    ring

end GuardrailNER

namespace GuardrailNER

/-! ## Concrete oracle instantiations used by counterexamples and witnesses -/

/-- An oracle whose presidio backend reports two high-risk email spans on
every text and whose semantic matcher reports nothing; a possible
behaviour of the external detectors, used to drive the endpoint guard to
a risk score above 0.8. -/
def oTwoEmails : Oracles :=
  { presidio := fun _ =>
      [Detection.mk "EMAIL_ADDRESS" 0 5 (85/100) (chars "a@b.c"),
       Detection.mk "EMAIL_ADDRESS" 6 11 (85/100) (chars "d@e.f")],
    semantic := fun _ => SemanticDet.mk false 0 none }

/-- An oracle whose semantic matcher reports the topic cgpa with
similarity 0.9 on every text (a fixed point of the deployed matcher is
plausible here, since the sanitized output still contains the literal
substring CGPA) and whose presidio backend reports nothing. -/
def oCgpa : Oracles :=
  { presidio := fun _ => [],
    semantic := fun _ => SemanticDet.mk true (9/10) (some "cgpa") }

/-- An oracle reporting no detections at all. -/
def oClean : Oracles :=
  { presidio := fun _ => [],
    semantic := fun _ => SemanticDet.mk false (1/10) none }

/-- An oracle whose presidio backend reports a single email span with
confidence 0.05, far below the configured presidio_confidence threshold
of 0.7, and whose semantic matcher reports nothing. -/
def oLowConfidence : Oracles :=
  { presidio := fun _ => [Detection.mk "EMAIL_ADDRESS" 0 5 (1/20) (chars "a@b.c")],
    semantic := fun _ => SemanticDet.mk false 0 none }

/-- An oracle whose semantic matcher reports the non-education topic
bank account and whose presidio backend reports nothing. -/
def oBankTopic : Oracles :=
  { presidio := fun _ => [],
    semantic := fun _ => SemanticDet.mk true (8/10) (some "bank account") }

/-! ## Claim theorems -/

/-- C1 counterexample: a concrete response text whose analysis has risk
score 1 (two high-risk email spans), strictly above 0.8, yet the final
guard of the query endpoint returns the response text itself, not the
blocked payload: the guard condition requires the safe flag to be false,
and analyze_content always sets it to true. -/
theorem C1_counterexample :
    (0.8 : ℚ) < (analyze_content oTwoEmails (chars "a@b.c d@e.f")).risk_score ∧
      final_response_check oTwoEmails (chars "a@b.c d@e.f") = chars "a@b.c d@e.f" ∧
      chars "a@b.c d@e.f" ≠ blocked_response_payload := by
  refine ⟨?_, ?_, by decide⟩
  · norm_num [analyze_content, analyze_text, calculate_risk, oTwoEmails, high_risk_entities]
  · simp [final_response_check, analyze_content]

/-- C1 amended: the query endpoint never replaces a response with the
blocked payload, whatever its risk score: analyze_content reports
safe as the literal true, so the blocking branch of the endpoint is
unreachable and every response text is returned as is. -/
theorem C1_amended_never_blocked (o : Oracles) (response_text : List Char) :
    final_response_check o response_text = response_text := by
  simp [final_response_check, analyze_content]

/-- C2 counterexample: sanitization is not idempotent.  With the cgpa
topic matched on both passes, the first pass rewrites CGPA to the token
[CGPA_REDACTED]; the token itself contains the literal substring CGPA, so
the second pass rewrites it again, yielding a different string. -/
theorem C2_counterexample :
    apply_guardrails oCgpa (apply_guardrails oCgpa (chars "CGPA 9.1") "moderate") "moderate"
      ≠ apply_guardrails oCgpa (chars "CGPA 9.1") "moderate" := by decide

/-- C2 amended: sanitization is idempotent whenever the analysis of the
sanitized output detects no PII: when the second analysis pass reports
the sanitized text as clean, sanitizing again returns it unchanged.
(The counterexample shows the unrestricted claim fails: the CGPA and GPA
redaction tokens contain their own trigger substrings, so a re-detection
re-redacts them.  The condition is sufficient, not necessary: a detected
topic whose keywords are absent from the text also leaves it fixed.) -/
theorem C2_amended_idempotent_when_clean (o : Oracles) (t : List Char) (m m' : String)
    (h : (analyze_text o (apply_guardrails o t m)).contains_pii = false) :
    apply_guardrails o (apply_guardrails o t m) m' = apply_guardrails o t m := by
  generalize hx : apply_guardrails o t m = s at h ⊢
  simp [apply_guardrails, h]

/-- C2 amended witness: with a clean oracle the hypothesis holds on a
concrete input, and sanitizing twice equals sanitizing once. -/
theorem C2_amended_witness :
    (analyze_text oClean (apply_guardrails oClean (chars "hello") "moderate")).contains_pii
        = false ∧
      apply_guardrails oClean (apply_guardrails oClean (chars "hello") "moderate") "moderate"
        = apply_guardrails oClean (chars "hello") "moderate" :=
  ⟨by decide, C2_amended_idempotent_when_clean oClean (chars "hello") "moderate" "moderate"
    (by decide)⟩

/-- C6 counterexample: a span whose confidence 0.05 is far below the
configured threshold 0.7 is not discarded anywhere: it is stored
unchanged in the risk report, contributes 0.7 to the risk score (0.3 as a
span plus 0.4 as a high-risk span), and drives a redaction of the text. -/
theorem C6_counterexample :
    (Detection.mk "EMAIL_ADDRESS" 0 5 (1/20) (chars "a@b.c")).score
        < thresholds_presidio_confidence ∧
      (analyze_text oLowConfidence (chars "a@b.c hi")).presidio_detections
        = [Detection.mk "EMAIL_ADDRESS" 0 5 (1/20) (chars "a@b.c")] ∧
      (analyze_text oLowConfidence (chars "a@b.c hi")).risk_score = 7/10 ∧
      apply_guardrails oLowConfidence (chars "a@b.c hi") "moderate" ≠ chars "a@b.c hi" := by
  refine ⟨?_, rfl, ?_, by decide⟩
  · norm_num [thresholds_presidio_confidence]
  · norm_num [analyze_text, calculate_risk, oLowConfidence, high_risk_entities]

/-- C6 amended: no confidence filtering happens at all.  Every span the
detector returns, in particular every span with confidence below the
configured presidio_confidence threshold of 0.7, is kept verbatim in the
risk report, and the risk score is computed over the unfiltered list. -/
theorem C6_amended_no_confidence_filter (o : Oracles) (t : List Char) (d : Detection)
    (hm : d ∈ o.presidio t) (hlow : d.score < thresholds_presidio_confidence) :
    d ∈ (analyze_text o t).presidio_detections ∧
      (analyze_text o t).presidio_detections = o.presidio t ∧
      (analyze_text o t).risk_score = calculate_risk (o.presidio t) (o.semantic t) :=
  ⟨hm, rfl, rfl⟩

/-- C6 amended witness: the low-confidence span of the concrete oracle
satisfies both hypotheses and is kept in the report. -/
theorem C6_amended_witness :
    ((Detection.mk "EMAIL_ADDRESS" 0 5 (1/20) (chars "a@b.c"))
          ∈ oLowConfidence.presidio (chars "a@b.c hi") ∧
        (Detection.mk "EMAIL_ADDRESS" 0 5 (1/20) (chars "a@b.c")).score
          < thresholds_presidio_confidence) ∧
      ((Detection.mk "EMAIL_ADDRESS" 0 5 (1/20) (chars "a@b.c"))
          ∈ (analyze_text oLowConfidence (chars "a@b.c hi")).presidio_detections ∧
        (analyze_text oLowConfidence (chars "a@b.c hi")).presidio_detections
          = oLowConfidence.presidio (chars "a@b.c hi") ∧
        (analyze_text oLowConfidence (chars "a@b.c hi")).risk_score
          = calculate_risk (oLowConfidence.presidio (chars "a@b.c hi"))
              (oLowConfidence.semantic (chars "a@b.c hi"))) :=
  ⟨⟨by simp [oLowConfidence], by norm_num [thresholds_presidio_confidence]⟩,
   C6_amended_no_confidence_filter oLowConfidence (chars "a@b.c hi")
     (Detection.mk "EMAIL_ADDRESS" 0 5 (1/20) (chars "a@b.c")) (by simp [oLowConfidence])
     (by norm_num [thresholds_presidio_confidence])⟩

/-- C10: when a semantic match is detected but no entity spans are
present, and the uppercased matched topic contains none of the substrings
CGPA, MARKS, GPA, PERCENTAGE, apply_guardrails returns the input
unchanged: the topic keyword pass only ever alters text for education
topics. -/
theorem C10_topic_pass_only_education (o : Oracles) (text : List Char) (mode : String)
    (h1 : o.presidio text = [])
    (h2 : (o.semantic text).detected = true)
    (h3 : containsSub (listToUpper (chars ((o.semantic text).matched_topic.getD "")))
        (chars "CGPA") = false)
    (h4 : containsSub (listToUpper (chars ((o.semantic text).matched_topic.getD "")))
        (chars "MARKS") = false)
    (h5 : containsSub (listToUpper (chars ((o.semantic text).matched_topic.getD "")))
        (chars "GPA") = false)
    (h6 : containsSub (listToUpper (chars ((o.semantic text).matched_topic.getD "")))
        (chars "PERCENTAGE") = false) :
    apply_guardrails o text mode = text := by
  simp [apply_guardrails, analyze_text, redact_pii, redact_spans, topic_keyword_pass,
    sortDetDesc, h1, h2, h3, h4, h5, h6]

/-- C10 witness: the theorem applied to the bank-account topic oracle on
a concrete text, every hypothesis discharged by evaluation. -/
theorem C10_witness :
    (oBankTopic.presidio (chars "my savings") = [] ∧
        (oBankTopic.semantic (chars "my savings")).detected = true ∧
        containsSub (listToUpper (chars
          ((oBankTopic.semantic (chars "my savings")).matched_topic.getD "")))
          (chars "CGPA") = false ∧
        containsSub (listToUpper (chars
          ((oBankTopic.semantic (chars "my savings")).matched_topic.getD "")))
          (chars "MARKS") = false ∧
        containsSub (listToUpper (chars
          ((oBankTopic.semantic (chars "my savings")).matched_topic.getD "")))
          (chars "GPA") = false ∧
        containsSub (listToUpper (chars
          ((oBankTopic.semantic (chars "my savings")).matched_topic.getD "")))
          (chars "PERCENTAGE") = false) ∧
      apply_guardrails oBankTopic (chars "my savings") "moderate" = chars "my savings" :=
  ⟨⟨by decide, by decide, by decide, by decide, by decide, by decide⟩,
   C10_topic_pass_only_education oBankTopic (chars "my savings") "moderate"
     (by decide) (by decide) (by decide) (by decide) (by decide) (by decide)⟩

/-- C3: for every list of entity spans and every semantic match, the risk
score returned by _calculate_risk equals
min(1.0, 0.3 times the span count, plus 0.5 times the semantic similarity
when the semantic match is detected, plus 0.4 times the count of spans
whose type is in the configured high-risk set). -/
theorem C3_risk_score_formula (dets : List Detection) (sem : SemanticDet) :
    calculate_risk dets sem = risk_formula dets sem :=
  calculate_risk_eq dets sem

/-- C4: for a fixed base report, appending one high-risk entity span never
decreases the computed risk score, and (under the invariant established by
detect_semantic_pii, that a detected semantic match carries a nonnegative
similarity, since it must exceed the 0.75 threshold) the computed risk
score lies in the interval from 0 to 1. -/
theorem C4_risk_monotone_and_clamped (base : List Detection) (sem : SemanticDet) (d : Detection)
    (hd : high_risk_entities.contains d.entity_type = true)
    (hs : sem.detected = true → 0 ≤ sem.similarity) :
    calculate_risk base sem ≤ calculate_risk (base ++ [d]) sem ∧
      0 ≤ calculate_risk base sem ∧ calculate_risk base sem ≤ 1 := by
  rw [calculate_risk_eq, calculate_risk_eq]
  unfold risk_formula
  refine ⟨?_, ?_, min_le_left _ _⟩
  · apply min_le_min (le_refl 1)
    rw [List.filter_append, List.length_append, List.filter_cons, hd]
    simp only [List.filter_nil, List.length_append, List.length_cons, List.length_nil]
    push_cast
    have hite : (0 : ℚ) ≤ 0.3 := by norm_num
    linarith
  · refine le_min (by norm_num) ?_
    have h1 : (0 : ℚ) ≤ 0.3 * (base.length : ℚ) := by positivity
    have h2 : (0 : ℚ) ≤ (if sem.detected then 0.5 * sem.similarity else 0) := by
      by_cases h : sem.detected
      · simp only [h, if_pos]
        have := hs h
        linarith
      · simp [h]
    have h3 : (0 : ℚ) ≤ 0.4 *
        ((base.filter (fun d => high_risk_entities.contains d.entity_type)).length : ℚ) := by
      positivity
    linarith

/-- C4 witness: the theorem applied at the empty base report, an
undetected semantic match and a concrete high-risk email span. -/
theorem C4_witness :
    (high_risk_entities.contains
        (Detection.mk "EMAIL_ADDRESS" 0 5 (9/10) (chars "a@b.c")).entity_type = true ∧
      ((SemanticDet.mk false 0 none).detected = true →
        0 ≤ (SemanticDet.mk false 0 none).similarity)) ∧
    (calculate_risk [] (SemanticDet.mk false 0 none) ≤
        calculate_risk ([] ++ [Detection.mk "EMAIL_ADDRESS" 0 5 (9/10) (chars "a@b.c")])
          (SemanticDet.mk false 0 none) ∧
      0 ≤ calculate_risk [] (SemanticDet.mk false 0 none) ∧
      calculate_risk [] (SemanticDet.mk false 0 none) ≤ 1) :=
  ⟨⟨by decide, by decide⟩,
   C4_risk_monotone_and_clamped [] (SemanticDet.mk false 0 none)
     (Detection.mk "EMAIL_ADDRESS" 0 5 (9/10) (chars "a@b.c")) (by decide) (by decide)⟩

/-- The descending-start comparison is total. -/
instance : IsTotal Detection (fun a b => b.«start» ≤ a.«start») :=
  ⟨fun a b => le_total b.«start» a.«start»⟩

/-- The descending-start comparison is transitive. -/
instance : IsTrans Detection (fun a b => b.«start» ≤ a.«start») :=
  ⟨fun _ _ _ h1 h2 => le_trans h2 h1⟩

/-- C5 spec-side definition, written from the Redactor algorithm of spec
section 4.4, steps 1 and 2: sort entity spans by start descending, then
for each span in that order replace the slice from start to end with the
configured replacement token for its entity type, falling back to the
generated token when the type has no explicit mapping. -/
def redact_spans_spec (text : List Char) (spans : List Detection) : List Char :=
  (sortDetDesc spans).foldl
    (fun acc d =>
      let tok : List Char :=
        match redaction_lookup d.entity_type with
        | some r => chars r
        | none => chars ("[" ++ d.entity_type ++ "_REDACTED]")
      acc.take d.«start» ++ tok ++ acc.drop d.«end»)
    text

/-- C5: redact_pii processes the spans in descending order of start
offset, replacing the slice from start to end of each span with the
configured replacement token for its type (or the generated fallback):
its text output is the topic pass applied to the spec-side sorted
replacement fold, the list it folds over is pairwise descending by start,
and that list is a permutation of the spans of the report (every span is
processed exactly once). -/
theorem C5_redaction_descending_order (text : List Char) (an : Analysis) :
    (redact_pii text an).1
        = topic_keyword_pass (redact_spans_spec text an.presidio_detections)
            an.semantic_detection ∧
      (sortDetDesc an.presidio_detections).Pairwise (fun a b => b.«start» ≤ a.«start») ∧
      List.Perm (sortDetDesc an.presidio_detections) an.presidio_detections :=
  ⟨rfl, List.sorted_insertionSort _ _, List.perm_insertionSort _ _⟩

/-- C8 counterexample input: an analysis whose two spans arrive in
ascending start order. -/
def anAscending : Analysis :=
  { contains_pii := true,
    presidio_detections :=
      [Detection.mk "URL" 0 3 (9/10) (chars "a.b"), Detection.mk "URL" 5 8 (9/10) (chars "c.d")],
    semantic_detection := SemanticDet.mk false 0 none,
    all_detections :=
      [Detection.mk "URL" 0 3 (9/10) (chars "a.b"), Detection.mk "URL" 5 8 (9/10) (chars "c.d")],
    risk_score := 0 }

/-- C8 counterexample: redact_pii does not leave the report unchanged; on
a report whose spans arrive in ascending start order, the span sequence
observable after the call is reordered (the in-place sort at
guardrails.py line 171 mutates the analysis dict). -/
theorem C8_counterexample :
    ((redact_pii (chars "a.b c.d!") anAscending).2).presidio_detections
      ≠ anAscending.presidio_detections := by decide

/-- C8 amended: redact_pii only reorders the span sequence of the report
(sorting it in place, descending by start); the resulting sequence is a
permutation of the original, and the contains_pii flag, semantic match
and risk score of the report are unchanged. -/
theorem C8_amended_reorder_only (t : List Char) (an : Analysis) :
    List.Perm ((redact_pii t an).2).presidio_detections an.presidio_detections ∧
      ((redact_pii t an).2).semantic_detection = an.semantic_detection ∧
      ((redact_pii t an).2).risk_score = an.risk_score ∧
      ((redact_pii t an).2).contains_pii = an.contains_pii :=
  ⟨List.perm_insertionSort _ _, rfl, rfl, rfl⟩

/-- C9: apply_guardrails is independent of its mode argument; the mode
parameter (and with it every per-mode threshold of DETECTION_MODES) is
never read, so any two modes produce the same sanitized output. -/
theorem C9_mode_independent (o : Oracles) (text : List Char) (m1 m2 : String) :
    apply_guardrails o text m1 = apply_guardrails o text m2 := rfl

/-! ## Real-valued model of the semantic matcher (detect_semantic_pii)

Claim C7 is about the numeric value produced by the cosine-similarity
computation itself, so here detect_semantic_pii (guardrails.py lines
127-140) is modelled over the reals, parametric in the embedding vectors
the external sentence-transformer encoder returns for the input text and
for the topic phrases.  The library call cos_sim computes the standard
cosine similarity, the dot product divided by the product of the
Euclidean norms; the max and argmax over the similarity row follow
torch semantics (argmax ties resolve to the first index, as the spec
states). -/

/-- Dot product of two real vectors given as lists (elementwise product,
summed; trailing elements of the longer vector are ignored, and the
embeddings of one model all share one dimension). -/
noncomputable def dotList (u v : List ℝ) : ℝ :=
  (List.zipWith (fun a b => a * b) u v).sum

/-- Euclidean norm of a real vector given as a list. -/
noncomputable def norm2 (u : List ℝ) : ℝ := Real.sqrt (dotList u u)

/-- Cosine similarity of two real vectors, as computed by the external
cos_sim library call: dot product over product of norms. -/
noncomputable def cos_sim (u v : List ℝ) : ℝ := dotList u v / (norm2 u * norm2 v)

/-- The max over the similarity row (torch max on a nonempty row; the
default 0 is irrelevant since the configured topic list is nonempty). -/
noncomputable def listMax (l : List ℝ) : ℝ := l.foldl max (l.headD 0)

section
open Classical

/-- First index attaining the maximum of the row (torch argmax semantics,
ties to the first index). -/
noncomputable def listArgmax (l : List ℝ) : Option Nat :=
  (l.enum.foldl
    (fun best p =>
      match best with
      | none => some p
      | some q => if q.2 < p.2 then some p else some q)
    none).map (fun p => p.1)

/-- The dict returned by detect_semantic_pii, real-valued view: detected
flag (as the proposition that the maximum similarity exceeds the
threshold), the reported similarity, and the matched topic when
detected. -/
structure SemanticMatchR where
  detected : Prop
  similarity : ℝ
  matched_topic : Option String

/-- detect_semantic_pii (guardrails.py lines 127-140) over the real-valued
cosine-similarity model: compute the similarity row against every topic
embedding, take the maximum, compare with the semantic_similarity
threshold 0.75, and report the matched topic on detection.  The
embedding vectors are parameters standing for the outputs of the
external encoder. -/
noncomputable def detect_semantic_pii_real (topics : List String)
    (topicEmbs : List (List ℝ)) (textEmb : List ℝ) : SemanticMatchR :=
  let sims := topicEmbs.map (fun e => cos_sim textEmb e)
  let max_sim := listMax sims
  if (0.75 : ℝ) < max_sim then
    { detected := True, similarity := max_sim,
      matched_topic := (listArgmax sims).bind (fun i => topics.get? i) }
  else
    { detected := False, similarity := max_sim, matched_topic := none }

end

/-- Both branches of detect_semantic_pii report the maximum of the
similarity row as the similarity value. -/
theorem detect_semantic_similarity_eq (topics : List String)
    (topicEmbs : List (List ℝ)) (textEmb : List ℝ) :
    (detect_semantic_pii_real topics topicEmbs textEmb).similarity
      = listMax (topicEmbs.map (fun e => cos_sim textEmb e)) := by
  simp only [detect_semantic_pii_real]
  split <;> rfl

/-- A dot square of a vector with itself is nonnegative. -/
theorem dotList_self_nonneg (u : List ℝ) : 0 ≤ dotList u u := by
  unfold dotList
  induction u with
  | nil => simp
  | cons a u ih =>
    simp only [List.zipWith_cons_cons, List.sum_cons]
    exact add_nonneg (mul_self_nonneg a) ih

/-- The list dot product as a finite sum over indices below the common
length. -/
theorem dotList_eq_sum (u v : List ℝ) :
    dotList u v
      = ∑ i ∈ Finset.range (min u.length v.length), u.getD i 0 * v.getD i 0 := by
  induction u generalizing v with
  | nil => simp [dotList]
  | cons a u ih =>
    cases v with
    | nil => simp [dotList]
    | cons b v =>
      have hstep : dotList (a :: u) (b :: v) = a * b + dotList u v := by
        simp [dotList]
      rw [hstep, ih, List.length_cons, List.length_cons, Nat.succ_min_succ,
        Finset.sum_range_succ']
      simp only [List.getD_cons_succ, List.getD_cons_zero]
      ring

/-- Cauchy-Schwarz for list dot products, squared form. -/
theorem dotList_sq_le (u v : List ℝ) :
    (dotList u v) ^ 2 ≤ dotList u u * dotList v v := by
  rw [dotList_eq_sum u v, dotList_eq_sum u u, dotList_eq_sum v v, min_self, min_self]
  have hcs := Finset.sum_mul_sq_le_sq_mul_sq (Finset.range (min u.length v.length))
    (fun i => u.getD i 0) (fun i => v.getD i 0)
  refine hcs.trans (mul_le_mul ?_ ?_ ?_ ?_)
  · refine Finset.sum_le_sum_of_subset_of_nonneg
      (Finset.range_subset.mpr (min_le_left _ _)) ?_ |>.trans_eq ?_
    · intro i _ _
      exact sq_nonneg _
    · exact Finset.sum_congr rfl (fun i _ => sq (u.getD i 0) ▸ (pow_two (u.getD i 0)))
  · refine Finset.sum_le_sum_of_subset_of_nonneg
      (Finset.range_subset.mpr (min_le_right _ _)) ?_ |>.trans_eq ?_
    · intro i _ _
      exact sq_nonneg _
    · exact Finset.sum_congr rfl (fun i _ => pow_two (v.getD i 0))
  · exact Finset.sum_nonneg (fun i _ => sq_nonneg _)
  · exact Finset.sum_nonneg (fun i _ => mul_self_nonneg _)

/-- Cauchy-Schwarz for list dot products: the absolute value of the dot
product is at most the product of the norms. -/
theorem abs_dotList_le (u v : List ℝ) : |dotList u v| ≤ norm2 u * norm2 v := by
  rw [norm2, norm2, ← Real.sqrt_mul (dotList_self_nonneg u), ← Real.sqrt_sq_eq_abs]
  exact Real.sqrt_le_sqrt (dotList_sq_le u v)

/-- Cosine similarity always lies between -1 and 1 (with the Lean
convention that division by a zero norm yields 0). -/
theorem abs_cos_sim_le_one (u v : List ℝ) : |cos_sim u v| ≤ 1 := by
  unfold cos_sim
  rcases eq_or_lt_of_le
      (mul_nonneg (Real.sqrt_nonneg (dotList u u)) (Real.sqrt_nonneg (dotList v v))
        : (0 : ℝ) ≤ norm2 u * norm2 v) with h | h
  · have habs := abs_dotList_le u v
    rw [← h] at habs
    have hz : dotList u v = 0 := abs_eq_zero.mp (le_antisymm habs (abs_nonneg _))
    simp [hz]
  · rw [abs_div, abs_of_pos h]
    exact div_le_one_of_le₀ (abs_dotList_le u v) (le_of_lt h)

/-- Folding max starting inside an interval and over elements of the
interval stays in the interval. -/
theorem foldl_max_bounds (l : List ℝ) (a : ℝ) (ha1 : -1 ≤ a) (ha2 : a ≤ 1)
    (hl : ∀ x ∈ l, -1 ≤ x ∧ x ≤ 1) :
    -1 ≤ l.foldl max a ∧ l.foldl max a ≤ 1 := by
  induction l generalizing a with
  | nil => exact ⟨ha1, ha2⟩
  | cons x xs ih =>
    have hx := hl x (List.mem_cons_self x xs)
    refine ih (max a x) (le_trans ha1 (le_max_left a x)) (max_le ha2 hx.2) ?_
    intro y hy
    exact hl y (List.mem_cons_of_mem x hy)

/-- The reported row maximum stays between -1 and 1 when every row entry
does. -/
theorem listMax_bounds (l : List ℝ) (hl : ∀ x ∈ l, -1 ≤ x ∧ x ≤ 1) :
    -1 ≤ listMax l ∧ listMax l ≤ 1 := by
  unfold listMax
  cases l with
  | nil => norm_num
  | cons x xs =>
    have hx := hl x (List.mem_cons_self x xs)
    exact foldl_max_bounds (x :: xs) x hx.1 hx.2 hl

/-- C7 counterexample: with a one-dimensional embedding where the text
vector and the sole topic vector point in opposite directions, the
similarity reported by the semantic matcher is -1, which does not lie in
the interval from 0 to 1 claimed by the spec. -/
theorem C7_counterexample :
    (detect_semantic_pii_real ["bank account"] [[-1]] [1]).similarity = -1 ∧
      ¬ (0 ≤ (detect_semantic_pii_real ["bank account"] [[-1]] [1]).similarity) := by
  have hc : cos_sim [(1 : ℝ)] [(-1 : ℝ)] = -1 := by
    unfold cos_sim norm2 dotList
    simp only [List.zipWith_cons_cons, List.zipWith_nil_right, List.sum_cons, List.sum_nil]
    norm_num [Real.sqrt_one]
  have h : (detect_semantic_pii_real ["bank account"] [[-1]] [1]).similarity = -1 := by
    rw [detect_semantic_similarity_eq]
    simp [listMax, hc]
  exact ⟨h, by rw [h]; norm_num⟩

/-- C7 amended: for every embedding of the text and of the topics, the
similarity value reported by the semantic matcher is the maximum cosine
similarity of the row and lies in the interval from -1 to 1; the interval
from 0 to 1 claimed by the spec is guaranteed only when the match is
detected (the value then exceeds the 0.75 threshold). -/
theorem C7_amended_similarity_bounds (topics : List String)
    (topicEmbs : List (List ℝ)) (textEmb : List ℝ) :
    -1 ≤ (detect_semantic_pii_real topics topicEmbs textEmb).similarity ∧
      (detect_semantic_pii_real topics topicEmbs textEmb).similarity ≤ 1 := by
  rw [detect_semantic_similarity_eq]
  apply listMax_bounds
  intro x hx
  simp only [List.mem_map] at hx
  obtain ⟨e, _, rfl⟩ := hx
  exact abs_le.mp (abs_cos_sim_le_one textEmb e)

end GuardrailNER
